import Mathlib

/-!
Verification of the subscription billing core of the lyvio platform
(src/subscriptions): the Wompi webhook handler with its idempotency
ledger and matching strategies, the recurring-payment scheduler, the
manual retry-charge path, and discount evaluation.

Shallow embedding conventions:
  - timestamps are integers (seconds); one day is 86400 seconds and
    Django timedelta(days=n) becomes n * 86400;
  - Django DecimalField amounts are rationals;
  - Django querysets become list filters; the subscription list is kept
    in the Meta ordering of the model, newest first (ordering
    -created_at), so filter(...).first() is (filter ...).head?;
  - CharField columns declared blank=True but not null=True are
    non-nullable strings whose missing value is the empty string;
  - sha256 is an abstract function parameter of the handler;
  - python exceptions swallowed by an except block are modeled by
    returning the state reached when the exception is raised, skipping
    the rest of the block, exactly as the handler does.
-/

namespace Lyvio

/-- needle is a prefix of the character list. -/
def listPrefix : List Char → List Char → Bool
  | [], _ => true
  | _ :: _, [] => false
  | a :: as, b :: bs => a == b && listPrefix as bs

/-- needle occurs somewhere in the character list. -/
def listInfix (needle : List Char) : List Char → Bool
  | [] => listPrefix needle []
  | c :: rest => listPrefix needle (c :: rest) || listInfix needle rest

/-- Python substring test: needle in haystack. -/
def strContains (s needle : String) : Bool :=
  listInfix needle.data s.data

/-- Python str.split on a single separator character, over the
character list: splitting the empty string gives one empty fragment,
and every separator occurrence starts a new fragment. -/
def splitOnChar (sep : Char) : List Char → List (List Char)
  | [] => [[]]
  | c :: rest =>
    let r := splitOnChar sep rest
    if c == sep then [] :: r
    else
      match r with
      | [] => [[c]]
      | h :: t => (c :: h) :: t

/-- Python reference.split of the webhook handler, always on the
single character separator. -/
def pySplit (s : String) (sep : Char) : List String :=
  (splitOnChar sep s.data).map (fun l => String.mk l)

/-- One decimal digit. -/
def digitVal (c : Char) : Option Nat :=
  if c == '0' then some 0 else if c == '1' then some 1
  else if c == '2' then some 2 else if c == '3' then some 3
  else if c == '4' then some 4 else if c == '5' then some 5
  else if c == '6' then some 6 else if c == '7' then some 7
  else if c == '8' then some 8 else if c == '9' then some 9 else none

/-- Parse a digit list as a natural number, accumulating left to
right; none when a character is not a digit. -/
def digitsToNat (acc : Nat) : List Char → Option Nat
  | [] => some acc
  | c :: rest =>
    match digitVal c with
    | some d => digitsToNat (acc * 10 + d) rest
    | none => none

/-- Python int() as the webhook handler uses it on reference
fragments: a non-empty all-digit string parses to the number, anything
else raises (here: none). The ids embedded in references are
non-negative integers. -/
def pyInt (s : String) : Option Nat :=
  match s.data with
  | [] => none
  | l => digitsToNat 0 l

/-- Seconds in a day; timedelta(days=n) is n * day seconds. -/
def daySecs : Int := 86400

/-- The date of a timestamp, as a day index (timezone.now().date()). -/
def dayOf (t : Int) : Int := t.fdiv daySecs

/-- subscriptions.models.Subscription row: the billing-relevant columns.
payment_source_id, wompi_subscription_id and wompi_customer_email are
CharField blank=True (non-nullable, empty string when absent). -/
structure SubRow where
  id : Nat
  companyId : Nat
  planId : Nat
  status : String
  billingCycle : String
  currentPeriodStart : Int
  currentPeriodEnd : Int
  wompiSubscriptionId : String
  wompiCustomerEmail : String
  paymentSourceId : String
  createdAt : Int
deriving Repr, DecidableEq

/-- subscriptions.models.Invoice row; wompi_transaction_id is unique. -/
structure InvoiceRow where
  subscriptionId : Nat
  amount : ℚ
  status : String
  paidAt : Option Int
  wompiTransactionId : String
  wompiReference : String
deriving Repr, DecidableEq

/-- accounts.models.User as seen by the webhook reference fallback:
an id and an optional company. -/
structure UserRow where
  id : Nat
  companyId : Option Nat
deriving Repr, DecidableEq

/-- subscriptions.models.Plan: the price columns the billing core reads. -/
structure PlanRow where
  id : Nat
  priceMonthly : ℚ
  priceYearly : ℚ
deriving Repr, DecidableEq

/-- subscriptions.models.WebhookEvent ledger row. The invoice
back-reference is keyed by the referenced invoice's unique
wompi_transaction_id column. -/
structure EventRow where
  eventId : String
  eventType : Option String
  transactionId : Option String
  signature : String
  status : String
  errorMessage : String
  subscriptionRef : Option Nat
  invoiceRef : Option String
  processedAt : Option Int
deriving Repr, DecidableEq

/-- Observable side effects of the business code, in execution order:
each Subscription save and each call of notify_account_reactivation
(with the acknowledgment it returned), and each outbound gateway
charge call of the scheduler. -/
inductive Act where
  | savedSub (id : Nat) (status : String)
  | notifiedRestore (companyId : Nat) (ok : Bool)
  | gwCharge (subId : Nat)
deriving Repr, DecidableEq

/-- The business tables (everything the reconciliation code can touch)
plus the side-effect trace. The webhook ledger lives outside, so the
business step cannot modify it by construction, mirroring the source
where the ledger is only written by the surrounding handler. -/
structure Biz where
  subs : List SubRow
  invoices : List InvoiceRow
  users : List UserRow
  plans : List PlanRow
  trace : List Act
deriving Repr, DecidableEq

/-- Full persistent state: business tables, webhook ledger, clock. -/
structure St where
  biz : Biz
  events : List EventRow
  now : Int
deriving Repr, DecidableEq

/-- data.transaction of a webhook payload; every field may be absent. -/
structure Txn where
  id : Option String
  status : Option String
  reference : Option String
  amountInCents : Option Nat
  paymentSourceId : Option String
  customerEmail : Option String
deriving Repr, DecidableEq

/-- A parsed webhook body: id, event, data.transaction (a missing
data.transaction behaves as one with every field absent). -/
structure Payload where
  id : Option String
  event : Option String
  txn : Txn
deriving Repr, DecidableEq

/-- Persist a mutated subscription object: replace the row with the same
primary key and record the save in the trace. -/
def saveSub (b : Biz) (s : SubRow) : Biz :=
  { b with
    subs := b.subs.map (fun x => if x.id = s.id then s else x)
    trace := b.trace ++ [Act.savedSub s.id s.status] }

/-- notify_account_reactivation: external call to the provisioning
collaborator; it returns its acknowledgment and never raises. -/
def notifyRestore (b : Biz) (companyId : Nat) (ok : Bool) : Biz :=
  { b with trace := b.trace ++ [Act.notifiedRestore companyId ok] }

/-- Invoice.objects.filter(wompi_transaction_id=tid).first() is not None;
a filter on None matches nothing (IS NULL on a non-null column). -/
def invoiceExists (b : Biz) (tid : Option String) : Bool :=
  match tid with
  | some tv => b.invoices.any (fun i => i.wompiTransactionId == tv)
  | none => false

/-- Invoice.objects.create of a paid invoice for a webhook transaction. -/
def addInvoice (now : Int) (b : Biz) (subId : Nat) (amount : ℚ)
    (tid ref : String) : Biz :=
  { b with invoices := b.invoices ++
      [{ subscriptionId := subId, amount := amount, status := "paid",
         paidAt := some now, wompiTransactionId := tid,
         wompiReference := ref }] }

/-- Period extension on approved recurring or retry charges: the new
period starts at the previous period end and runs one cycle length
(365 days yearly, 30 days monthly) from there. -/
def extendPeriod (s : SubRow) : SubRow :=
  let d : Int := if s.billingCycle = "yearly" then 365 * daySecs else 30 * daySecs
  { s with currentPeriodStart := s.currentPeriodEnd
           currentPeriodEnd := s.currentPeriodEnd + d }

/-- DiscountCampaign.calculate_discount: percentage discounts are
price * (value / 100); fixed discounts are capped at the price. -/
def calculate_discount (discountType : String) (discountValue : ℚ)
    (originalPrice : ℚ) : ℚ :=
  if discountType = "percentage" then
    originalPrice * (discountValue / 100)
  else
    min discountValue originalPrice

/-! ## Webhook handler (subscriptions.views.wompi_webhook)

The reconciliation of an APPROVED transaction.updated event, lines
1346-1733 of views.py. Inline python exceptions that the surrounding
except swallows (inserting NULL into a non-nullable column when the
payload lacks the transaction id, the reference or a nonzero amount)
end the block at the state already persisted. -/

/-- Lines 1383-1483: a subscription was found by the stored transaction
id or by a recurring/retry reference. Activate it if pending, create
the invoice unless one exists for this transaction id, and for retry
references reactivate a suspended subscription (notifying the
provisioning collaborator) and extend the period; for recurring
references extend the period. -/
def approvedFound (now : Int) (t : Txn) (notifyOk : Bool) (b : Biz)
    (sub0 : SubRow) : Biz :=
  let pair :=
    if sub0.status = "pending" then
      let s1 := { sub0 with status := "active" }
      (saveSub b s1, s1)
    else (b, sub0)
  let b1 := pair.1
  let sub1 := pair.2
  if invoiceExists b1 t.id then b1
  else
    match t.id, t.reference with
    | some tidv, some refv =>
      let cents := t.amountInCents.getD 0
      if cents = 0 then b1
      else
        let b2 := addInvoice now b1 sub1.id ((cents : ℚ) / 100) tidv refv
        let isRetry := strContains refv "LYVIO-RETRY-"
        let isRec := strContains refv "LYVIO-REC-"
        if isRetry then
          let pair2 :=
            if sub1.status = "suspended" then
              let s2 := { sub1 with status := "active" }
              let bA := saveSub b2 s2
              (notifyRestore bA s2.companyId notifyOk, s2)
            else (b2, sub1)
          saveSub pair2.1 (extendPeriod pair2.2)
        else if isRec then
          saveSub b2 (extendPeriod sub1)
        else b2
    | _, _ => b1

/-- Lines 1500-1549: a subscription was found by payment_source_id.
Activate it if pending, create the invoice unless one exists, extend
the period only for recurring references. -/
def sourceMatched (now : Int) (t : Txn) (b : Biz) (sub0 : SubRow) : Biz :=
  let pair :=
    if sub0.status = "pending" then
      let s1 := { sub0 with status := "active" }
      (saveSub b s1, s1)
    else (b, sub0)
  let b1 := pair.1
  let sub1 := pair.2
  if invoiceExists b1 t.id then b1
  else
    match t.id, t.reference with
    | some tidv, some refv =>
      let cents := t.amountInCents.getD 0
      if cents = 0 then b1
      else
        let b2 := addInvoice now b1 sub1.id ((cents : ℚ) / 100) tidv refv
        if strContains refv "LYVIO-REC-" then saveSub b2 (extendPeriod sub1)
        else b2
    | _, _ => b1

/-- Lines 1583-1633 and 1665-1714 (identical blocks): a subscription
was found by customer email recency or by a first-payment reference.
Store the transaction id on it, activate it if pending, save, create
the invoice unless one exists, extend only for recurring references.
A payload without a transaction id makes the save insert NULL and
raise, so nothing is persisted. -/
def fallbackUpdate (now : Int) (t : Txn) (b : Biz) (sub0 : SubRow) : Biz :=
  match t.id with
  | none => b
  | some tidv =>
    let sub1 := { sub0 with
      wompiSubscriptionId := tidv
      status := if sub0.status = "pending" then "active" else sub0.status }
    let b1 := saveSub b sub1
    if invoiceExists b1 (some tidv) then b1
    else
      match t.reference with
      | none => b1
      | some refv =>
        let cents := t.amountInCents.getD 0
        if cents = 0 then b1
        else
          let b2 := addInvoice now b1 sub1.id ((cents : ℚ) / 100) tidv refv
          if strContains refv "LYVIO-REC-" then saveSub b2 (extendPeriod sub1)
          else b2

/-- Lines 1485-1728: no subscription was found by the stored
transaction id or a recurring/retry reference. Try, in this order:
payment_source_id; customer email within the last five minutes
(newest first); a LYVIO-FIRST reference giving plan id and user id,
matched against the user's company within the last 24 hours. If all
fail, only logging happens. -/
def approvedFallback (now : Int) (t : Txn) (b : Biz) : Biz :=
  let viaSource : Option SubRow :=
    match t.paymentSourceId with
    | some ps =>
      if ps = "" then none
      else (b.subs.filter (fun s => s.paymentSourceId == ps)).head?
    | none => none
  match viaSource with
  | some sub => sourceMatched now t b sub
  | none =>
    let viaEmail : Option SubRow :=
      match t.customerEmail with
      | some em =>
        if em = "" then none
        else (b.subs.filter (fun s =>
          s.wompiCustomerEmail == em && decide (now - 300 ≤ s.createdAt))).head?
      | none => none
    match viaEmail with
    | some sub => fallbackUpdate now t b sub
    | none =>
      match t.reference with
      | none => b
      | some refv =>
        if refv = "" then b
        else
          let parts := pySplit refv '-'
          if parts.length ≥ 4 ∧ parts.get? 0 = some "LYVIO" ∧
              parts.get? 1 = some "FIRST" then
            match (parts.get? 2).bind pyInt,
                  (parts.get? 3).bind pyInt with
            | some planId, some userId =>
              match (b.users.filter (fun u => u.id == userId)).head? with
              | some user =>
                match user.companyId with
                | some cid =>
                  match (b.subs.filter (fun s =>
                      s.companyId == cid && s.planId == planId &&
                      decide (now - 86400 ≤ s.createdAt))).head? with
                  | some sub => fallbackUpdate now t b sub
                  | none => b
                | none => b
              | none => b
            | _, _ => b
          else b

/-- The ordered matching strategies for an APPROVED transaction, lines
1362-1728: first the stored creating transaction id, then recurring or
retry reference parsing, then the fallbacks of approvedFallback. -/
def processApproved (now : Int) (t : Txn) (notifyOk : Bool) (b : Biz) : Biz :=
  let s1 : Option SubRow :=
    match t.id with
    | some tidv => (b.subs.filter (fun s => s.wompiSubscriptionId == tidv)).head?
    | none => none
  let s2 : Option SubRow :=
    match s1 with
    | some s => some s
    | none =>
      match t.reference with
      | some refv =>
        if strContains refv "LYVIO-REC-" || strContains refv "LYVIO-RETRY-" then
          let parts := pySplit refv '-'
          if parts.length ≥ 3 then
            match (parts.get? 2).bind pyInt with
            | some sid => (b.subs.filter (fun s => s.id == sid)).head?
            | none => none
          else none
        else none
      | none => none
  match s2 with
  | some sub => approvedFound now t notifyOk b sub
  | none => approvedFallback now t b

/-- Lines 1333-1739: only transaction.updated events with APPROVED
status mutate billing state; DECLINED and VOIDED only log, other event
types are stored for audit. -/
def processBusiness (now : Int) (p : Payload) (notifyOk : Bool) (b : Biz) : Biz :=
  if p.event = some "transaction.updated" then
    if p.txn.status = some "APPROVED" then processApproved now p.txn notifyOk b
    else b
  else b

/-- Lines 1748-1763: after processing an approved transaction event,
look the affected subscription up again, by stored transaction id, then
by a LYVIO-REC or LYVIO-RENEW reference. -/
def computeProcessedSub (p : Payload) (b : Biz) : Option Nat :=
  if p.event = some "transaction.updated" ∧ p.txn.status = some "APPROVED" then
    let direct : Option SubRow :=
      match p.txn.id with
      | some tidv => (b.subs.filter (fun s => s.wompiSubscriptionId == tidv)).head?
      | none => none
    match direct with
    | some s => some s.id
    | none =>
      match p.txn.reference with
      | some refv =>
        if strContains refv "LYVIO-REC-" || strContains refv "LYVIO-RENEW-" then
          let parts := pySplit refv '-'
          if parts.length ≥ 3 then
            match (parts.get? 2).bind pyInt with
            | some sid =>
              ((b.subs.filter (fun s => s.id == sid)).head?).map (fun s => s.id)
            | none => none
          else none
        else none
      | none => none
  else none

/-- Lines 1766-1768: the invoice written for this transaction, if any,
keyed by its unique transaction id. -/
def computeProcessedInv (p : Payload) (b : Biz) : Option String :=
  if p.event = some "transaction.updated" ∧ p.txn.status = some "APPROVED" then
    match p.txn.id with
    | some tidv =>
      if b.invoices.any (fun i => i.wompiTransactionId == tidv) then some tidv
      else none
    | none => none
  else none

/-- WebhookEvent.objects.filter(event_id=...).first(); event_id is
unique so at most one row matches. -/
def findEvent (events : List EventRow) (eid : String) : Option EventRow :=
  events.find? (fun r => r.eventId == eid)

/-- Update the (unique) ledger row with the given event id. -/
def updEvent (events : List EventRow) (eid : String)
    (f : EventRow → EventRow) : List EventRow :=
  events.map (fun r => if r.eventId == eid then f r else r)

/-- WebhookEvent.mark_as_duplicate. -/
def markDuplicate (st : St) (eid : String) : St :=
  { st with events := updEvent st.events eid (fun r =>
      { r with status := "duplicate", processedAt := some st.now }) }

/-- WebhookEvent.mark_as_processing. -/
def markProcessing (st : St) (eid : String) : St :=
  { st with events := updEvent st.events eid (fun r =>
      { r with status := "processing" }) }

/-- WebhookEvent.mark_as_processed: back-references are only written
when a value was resolved. -/
def markProcessed (st : St) (eid : String) (psub : Option Nat)
    (pinv : Option String) : St :=
  { st with events := updEvent st.events eid (fun r =>
      { r with status := "processed", processedAt := some st.now,
               subscriptionRef :=
                 match psub with | some x => some x | none => r.subscriptionRef,
               invoiceRef :=
                 match pinv with | some x => some x | none => r.invoiceRef }) }

/-- Lines 1314-1323: insert the fresh ledger row in processing state. -/
def createEvent (st : St) (eid : String) (p : Payload) (sig : String) : St :=
  { st with events := st.events ++
      [{ eventId := eid, eventType := p.event, transactionId := p.txn.id,
         signature := sig, status := "processing", errorMessage := "",
         subscriptionRef := none, invoiceRef := none,
         processedAt := none }] }

/-- Lines 1259-1269: record a rejected delivery; the row is created
with status invalid_signature (event type and transaction id default
to the string unknown here) and mark_as_invalid_signature then also
stamps the processing time and the error message. -/
def addInvalidSig (st : St) (eid : String) (p : Payload) (sig : String) : St :=
  { st with events := st.events ++
      [{ eventId := eid, eventType := some (p.event.getD "unknown"),
         transactionId := some (p.txn.id.getD "unknown"),
         signature := sig, status := "invalid_signature",
         errorMessage := "Firma X-Event-Checksum invalida",
         subscriptionRef := none, invoiceRef := none,
         processedAt := some st.now }] }

/-- Lines 1326-1797 tail: run the business step on the payload, then
mark the ledger row processed with whatever back-references resolve,
and acknowledge with 200. -/
def finishProcess (st : St) (eid : String) (p : Payload) (notifyOk : Bool) :
    St × Nat :=
  let b2 := processBusiness st.now p notifyOk st.biz
  let psub := computeProcessedSub p b2
  let pinv := computeProcessedInv p b2
  (markProcessed { st with biz := b2 } eid psub pinv, 200)

/-- subscriptions.views.wompi_webhook on a POST delivery. Inputs: the
raw body, its json.loads result (none when parsing raised), and the
X-Event-Checksum header; hash abstracts sha256 and secret is the
events secret. Returns the new state and the HTTP status code.
A body that fails to parse raises before any ledger write and the
handler answers 500; a signature-rejected delivery whose event id
already exists makes the audit insert violate the unique constraint,
which also ends in the 500 path with no write. -/
def wompiWebhook (hash : String → String) (secret : String) (notifyOk : Bool)
    (st : St) (rawBody : String) (parsed : Option Payload)
    (header : Option String) : St × Nat :=
  match parsed with
  | none => (st, 500)
  | some p =>
    match header with
    | none => (st, 401)
    | some sig =>
      if hash (rawBody ++ secret) ≠ sig then
        let eid := p.id.getD ("invalid-" ++ toString st.now)
        match findEvent st.events eid with
        | some _ => (st, 500)
        | none => (addInvalidSig st eid p sig, 403)
      else
        match p.id with
        | none => (st, 400)
        | some eid =>
          if eid = "" then (st, 400)
          else
            match findEvent st.events eid with
            | some row =>
              if row.status = "processed" ∨ row.status = "duplicate" then
                (markDuplicate st eid, 200)
              else if row.status = "processing" then (st, 200)
              else if row.status = "failed" then
                finishProcess (markProcessing st eid) eid p notifyOk
              else
                ({ st with biz := processBusiness st.now p notifyOk st.biz }, 500)
            | none =>
              finishProcess (createEvent st eid p sig) eid p notifyOk

/-- Deliver the same webhook input n times in sequence. -/
def iterWebhook (hash : String → String) (secret : String) (notifyOk : Bool)
    (rawBody : String) (parsed : Option Payload) (header : Option String) :
    Nat → St → St
  | 0, st => st
  | Nat.succ k, st =>
    iterWebhook hash secret notifyOk rawBody parsed header k
      (wompiWebhook hash secret notifyOk st rawBody parsed header).1

/-! ## Recurring scheduler (subscriptions.views.process_recurring_payments) -/

/-- The synchronous result of create_recurring_transaction: id and
status of the created transaction. -/
structure TxResult where
  id : String
  status : String
deriving Repr, DecidableEq

/-- The per-subscription entry of the scheduler response. -/
structure ItemResult where
  subscriptionId : Nat
  amount : Option ℚ
  status : String
  transactionId : Option String
deriving Repr, DecidableEq

/-- The aggregate counts of the scheduler response. -/
structure SchedSummary where
  totalProcessed : Nat
  successful : Nat
  failed : Nat
  simulated : Nat
deriving Repr, DecidableEq

/-- subscription.plan. -/
def getPlan (b : Biz) (s : SubRow) : Option PlanRow :=
  (b.plans.filter (fun p => p.id == s.planId)).head?

/-- Lines 1876-1890: the charge candidates. With no explicit id list:
status active, payment_source_id__isnull=False - which excludes
nothing, the column being non-nullable - and current_period_end date
not after today. With an explicit list: those ids with status active
(again with the vacuous isnull filter and no due-date check). -/
def schedulerSelect (b : Biz) (today : Int) (ids : List Nat) : List SubRow :=
  if ids = [] then
    b.subs.filter (fun s =>
      s.status == "active" && decide (dayOf s.currentPeriodEnd ≤ today))
  else
    b.subs.filter (fun s => ids.contains s.id && s.status == "active")

/-- Lines 1909-1915: yearly subscriptions are charged price_yearly, or
price_monthly times 12 when price_yearly is falsy, for a 365 day
period; monthly ones price_monthly for 30 days. -/
def chargeAmountDays (pl : PlanRow) (s : SubRow) : ℚ × Int :=
  if s.billingCycle = "yearly" then
    ((if pl.priceYearly = 0 then pl.priceMonthly * 12 else pl.priceYearly), 365)
  else (pl.priceMonthly, 30)

/-- Lines 1897-1964: one loop iteration. gw gives the outcome of the
create_recurring_transaction call (none when it raised). APPROVED and
PENDING both restart the period at now, running one cycle length from
now, and count as success; any other status marks the subscription
past_due; no invoice is written in either case. -/
def processOneRecurring (now : Int) (gw : Nat → Option TxResult)
    (dryRun : Bool) (b : Biz) (s : SubRow) : Biz × ItemResult :=
  match getPlan b s with
  | none => (b, { subscriptionId := s.id, amount := none, status := "error",
                  transactionId := none })
  | some pl =>
    let ad := chargeAmountDays pl s
    if dryRun then
      (b, { subscriptionId := s.id, amount := some ad.1, status := "simulated",
            transactionId := none })
    else
      let b0 := { b with trace := b.trace ++ [Act.gwCharge s.id] }
      match gw s.id with
      | none => (b0, { subscriptionId := s.id, amount := some ad.1,
                       status := "error", transactionId := none })
      | some tx =>
        if tx.status = "APPROVED" ∨ tx.status = "PENDING" then
          let s1 := { s with currentPeriodStart := now,
                             currentPeriodEnd := now + ad.2 * daySecs }
          (saveSub b0 s1, { subscriptionId := s.id, amount := some ad.1,
                            status := "success", transactionId := some tx.id })
        else
          (saveSub b0 { s with status := "past_due" },
           { subscriptionId := s.id, amount := some ad.1, status := "failed",
             transactionId := some tx.id })

/-- The scheduler loop over the selected subscriptions. -/
def runRecurring (now : Int) (gw : Nat → Option TxResult) (dryRun : Bool) :
    Biz → List SubRow → Biz × List ItemResult
  | b, [] => (b, [])
  | b, s :: rest =>
    let r1 := processOneRecurring now gw dryRun b s
    let rr := runRecurring now gw dryRun r1.1 rest
    (rr.1, r1.2 :: rr.2)

/-- subscriptions.views.process_recurring_payments: select, charge each
candidate, and summarize (successful counts status success, failed
counts both failed and error, simulated counts dry-run items). -/
def processRecurringPayments (now : Int) (gw : Nat → Option TxResult)
    (ids : List Nat) (dryRun : Bool) (b : Biz) :
    Biz × List ItemResult × SchedSummary :=
  let selected := schedulerSelect b (dayOf now) ids
  let rr := runRecurring now gw dryRun b selected
  let results := rr.2
  (rr.1, results,
   { totalProcessed := results.length,
     successful := (results.filter (fun r => r.status == "success")).length,
     failed := (results.filter (fun r =>
       r.status == "failed" || r.status == "error")).length,
     simulated := (results.filter (fun r => r.status == "simulated")).length })

/-! ## Manual retry charge (subscriptions.views.retry_payment) -/

/-- Lines 2340-2424: fetch the suspended subscription of the company,
require a stored payment source, and when the gateway outcome observed
synchronously (immediately or through the bounded poll, which runs the
identical block) is APPROVED: set status active, extend the period
from the previous period end, save, then notify the provisioning
collaborator. No invoice is written and no transaction id is checked
against existing invoices. -/
def retryPayment (gwStatus : String) (notifyOk : Bool) (b : Biz)
    (companyId : Nat) : Biz :=
  match (b.subs.filter (fun s =>
      s.companyId == companyId && s.status == "suspended")).head? with
  | none => b
  | some sub =>
    if sub.paymentSourceId = "" then b
    else if gwStatus = "APPROVED" then
      let s1 := extendPeriod { sub with status := "active" }
      let b1 := saveSub b s1
      notifyRestore b1 sub.companyId notifyOk
    else b

/-! ## Fixtures: concrete rows used by witnesses and counterexamples -/

/-- A monthly plan priced 50000, no yearly price. -/
def fxPlan : PlanRow := { id := 1, priceMonthly := 50000, priceYearly := 0 }

/-- A suspended monthly subscription whose paid period ended on day
1000, with a stored payment source. -/
def fxSuspended : SubRow :=
  { id := 1, companyId := 1, planId := 1, status := "suspended",
    billingCycle := "monthly", currentPeriodStart := 0,
    currentPeriodEnd := 86400000, wompiSubscriptionId := "",
    wompiCustomerEmail := "a@x", paymentSourceId := "ps1", createdAt := 0 }

/-- The same subscription, active. -/
def fxActive : SubRow := { fxSuspended with status := "active" }

/-- Business state holding only the active subscription and its plan. -/
def fxBizActive : Biz :=
  { subs := [fxActive], invoices := [], users := [], plans := [fxPlan],
    trace := [] }

/-- Business state holding only the suspended subscription and its plan. -/
def fxBizSuspended : Biz :=
  { subs := [fxSuspended], invoices := [], users := [], plans := [fxPlan],
    trace := [] }

/-! ## C9: discount bounds -/

/-- C9: for a non-negative original price, a fixed discount is capped
at the price so the payable amount is never negative, and a percentage
discount of 100 equals the price so the payable amount is exactly
zero. -/
theorem c9_discount_bound (p v : ℚ) (hp : 0 ≤ p) :
    0 ≤ p - calculate_discount "fixed" v p ∧
    calculate_discount "percentage" 100 p = p ∧
    p - calculate_discount "percentage" 100 p = 0 := by
  refine ⟨?_, ?_, ?_⟩
  · have h1 : calculate_discount "fixed" v p = min v p := by
      simp [calculate_discount]
    rw [h1]
    exact sub_nonneg.mpr (min_le_right v p)
  · simp [calculate_discount]
  · simp [calculate_discount]

/-- Witness for C9 at price 7 and fixed value 3. -/
theorem c9_discount_bound_witness :
    0 ≤ (7 : ℚ) ∧
    (0 ≤ (7 : ℚ) - calculate_discount "fixed" 3 7 ∧
     calculate_discount "percentage" 100 7 = 7 ∧
     (7 : ℚ) - calculate_discount "percentage" 100 7 = 0) :=
  ⟨by norm_num, c9_discount_bound 7 3 (by norm_num)⟩

/-! ## C4: scheduler on an approved monthly renewal -/

/-- C4 counterexample: the scheduler charges the active monthly
subscription whose period ended at T = 86400000 one day later
(now = 86486400), the gateway approves, and afterwards no Invoice
exists at all and the new period end is now + 30 days, which differs
from T + 30 days. This refutes the claimed invoice creation and the
claimed extension measured from the previous period end. -/
theorem c4_counterexample :
    (processRecurringPayments 86486400
        (fun _ => some { id := "tx5", status := "APPROVED" })
        [] false fxBizActive).1.invoices = [] ∧
    (processRecurringPayments 86486400
        (fun _ => some { id := "tx5", status := "APPROVED" })
        [] false fxBizActive).1.subs.map (fun s => s.currentPeriodEnd) =
      [86486400 + 30 * daySecs] ∧
    (86486400 + 30 * daySecs : Int) ≠ 86400000 + 30 * daySecs := by
  refine ⟨by decide, by decide, by decide⟩

/-- C4 amended: when the scheduler charges an active monthly
subscription that is due and the gateway approves, the run creates no
Invoice, sets current_period_start to the charge time and
current_period_end to charge time + 30 days (measured from now, not
from the previous period end), leaves the status active, and counts
the item as one success. -/
theorem c4_scheduler_approved (now : Int) (b : Biz) (s : SubRow)
    (pl : PlanRow) (i : String)
    (hsubs : b.subs = [s]) (hst : s.status = "active")
    (hcycle : s.billingCycle = "monthly")
    (hplan : getPlan b s = some pl)
    (hdue : dayOf s.currentPeriodEnd ≤ dayOf now) :
    (processRecurringPayments now
        (fun _ => some { id := i, status := "APPROVED" }) [] false b).1.subs =
      [{ s with currentPeriodStart := now,
                currentPeriodEnd := now + 30 * daySecs }] ∧
    (processRecurringPayments now
        (fun _ => some { id := i, status := "APPROVED" }) [] false b).1.invoices =
      b.invoices ∧
    (processRecurringPayments now
        (fun _ => some { id := i, status := "APPROVED" }) [] false b).1.subs.map
        (fun x => x.status) = ["active"] ∧
    (processRecurringPayments now
        (fun _ => some { id := i, status := "APPROVED" }) [] false b).2.2.successful = 1 := by
  have hsel : schedulerSelect b (dayOf now) [] = [s] := by
    simp [schedulerSelect, hsubs, hst, hdue]
  simp [processRecurringPayments, hsel, runRecurring, processOneRecurring,
    hplan, chargeAmountDays, hcycle, saveSub, hsubs, hst]

/-- Witness for C4 amended at the fixture state. -/
theorem c4_scheduler_approved_witness :
    (processRecurringPayments 86486400
        (fun _ => some { id := "tx5", status := "APPROVED" })
        [] false fxBizActive).1.subs =
      [{ fxActive with currentPeriodStart := 86486400,
                       currentPeriodEnd := 86486400 + 30 * daySecs }] ∧
    (processRecurringPayments 86486400
        (fun _ => some { id := "tx5", status := "APPROVED" })
        [] false fxBizActive).1.invoices = fxBizActive.invoices ∧
    (processRecurringPayments 86486400
        (fun _ => some { id := "tx5", status := "APPROVED" })
        [] false fxBizActive).1.subs.map (fun x => x.status) = ["active"] ∧
    (processRecurringPayments 86486400
        (fun _ => some { id := "tx5", status := "APPROVED" })
        [] false fxBizActive).2.2.successful = 1 :=
  c4_scheduler_approved 86486400 fxBizActive fxActive fxPlan "tx5"
    (by decide) (by decide) (by decide) (by decide) (by decide)

/-! ## C10: scheduler treats PENDING like APPROVED -/

/-- C10: a PENDING gateway outcome is handled exactly like APPROVED by
the scheduler loop: identical resulting state and result item, status
success, no invoice written, period restarted at now for 30 days on a
monthly subscription; and any outcome other than APPROVED or PENDING
marks the subscription past_due. -/
theorem c10_pending_as_approved (now : Int) (b : Biz) (s : SubRow)
    (pl : PlanRow) (i : String) (other : String)
    (hsubs : b.subs = [s]) (hplan : getPlan b s = some pl)
    (hcycle : s.billingCycle = "monthly")
    (hoa : other ≠ "APPROVED") (hop : other ≠ "PENDING") :
    processOneRecurring now (fun _ => some { id := i, status := "PENDING" })
        false b s =
      processOneRecurring now (fun _ => some { id := i, status := "APPROVED" })
        false b s ∧
    (processOneRecurring now (fun _ => some { id := i, status := "PENDING" })
        false b s).2.status = "success" ∧
    (processOneRecurring now (fun _ => some { id := i, status := "PENDING" })
        false b s).1.invoices = b.invoices ∧
    (processOneRecurring now (fun _ => some { id := i, status := "PENDING" })
        false b s).1.subs =
      [{ s with currentPeriodStart := now,
                currentPeriodEnd := now + 30 * daySecs }] ∧
    (processOneRecurring now (fun _ => some { id := i, status := other })
        false b s).1.subs = [{ s with status := "past_due" }] := by
  refine ⟨?_, ?_, ?_, ?_, ?_⟩
  · simp [processOneRecurring, hplan]
  · simp [processOneRecurring, hplan]
  · simp [processOneRecurring, hplan, saveSub]
  · simp [processOneRecurring, hplan, saveSub, hsubs, chargeAmountDays, hcycle]
  · simp [processOneRecurring, hplan, saveSub, hsubs, chargeAmountDays, hcycle,
      hoa, hop]

/-- Witness for C10 at the fixture state with outcome DECLINED. -/
theorem c10_pending_as_approved_witness :
    processOneRecurring 86486400
        (fun _ => some { id := "tx5", status := "PENDING" })
        false fxBizActive fxActive =
      processOneRecurring 86486400
        (fun _ => some { id := "tx5", status := "APPROVED" })
        false fxBizActive fxActive ∧
    (processOneRecurring 86486400
        (fun _ => some { id := "tx5", status := "PENDING" })
        false fxBizActive fxActive).2.status = "success" ∧
    (processOneRecurring 86486400
        (fun _ => some { id := "tx5", status := "PENDING" })
        false fxBizActive fxActive).1.invoices = fxBizActive.invoices ∧
    (processOneRecurring 86486400
        (fun _ => some { id := "tx5", status := "PENDING" })
        false fxBizActive fxActive).1.subs =
      [{ fxActive with currentPeriodStart := 86486400,
                       currentPeriodEnd := 86486400 + 30 * daySecs }] ∧
    (processOneRecurring 86486400
        (fun _ => some { id := "tx5", status := "DECLINED" })
        false fxBizActive fxActive).1.subs =
      [{ fxActive with status := "past_due" }] :=
  c10_pending_as_approved 86486400 fxBizActive fxActive fxPlan "tx5" "DECLINED"
    (by decide) (by decide) (by decide) (by decide) (by decide)

/-! ## C8: scheduler selection -/

/-- A due active subscription whose payment_source_id is the empty
string (the missing value of the non-nullable column). -/
def fxEmptyPS : SubRow := { fxActive with paymentSourceId := "" }

/-- Business state holding only the empty-payment-source subscription. -/
def fxBizEmptyPS : Biz :=
  { subs := [fxEmptyPS], invoices := [], users := [], plans := [fxPlan],
    trace := [] }

/-- C8 counterexample: the scheduler selects the active due
subscription whose payment_source_id is empty - the isnull filter
excludes nothing because the column is non-nullable - and the run
still issues the external gateway charge for it, so a subscription
with a missing payment-method id is neither excluded nor rejected
before the external call. -/
theorem c8_counterexample :
    fxEmptyPS ∈ schedulerSelect fxBizEmptyPS (dayOf 86486400) [] ∧
    fxEmptyPS.paymentSourceId = "" ∧
    Act.gwCharge 1 ∈
      (processRecurringPayments 86486400
        (fun _ => some { id := "tx5", status := "APPROVED" })
        [] false fxBizEmptyPS).1.trace := by
  refine ⟨by decide, by decide, by decide⟩

/-- C8 amended: with no explicit id list the scheduler selects exactly
the subscriptions with status active whose current_period_end date is
not after today - the stored payment-method condition is vacuous - and
for a selected subscription with an empty payment-method id the
external charge call is still made. -/
theorem c8_selection (b : Biz) (today : Int) (s : SubRow) :
    (s ∈ schedulerSelect b today [] ↔
      s ∈ b.subs ∧ s.status = "active" ∧ dayOf s.currentPeriodEnd ≤ today) ∧
    (∀ (now : Int) (gw : Nat → Option TxResult) (pl : PlanRow),
      getPlan b s = some pl → s.paymentSourceId = "" →
      Act.gwCharge s.id ∈ (processOneRecurring now gw false b s).1.trace) := by
  constructor
  · simp [schedulerSelect, List.mem_filter, and_assoc]
  · intro now gw pl hplan _
    simp only [processOneRecurring, hplan]
    cases hg : gw s.id with
    | none => simp [List.mem_append]
    | some tx =>
      by_cases hs : tx.status = "APPROVED" ∨ tx.status = "PENDING" <;>
        simp [hs, saveSub, List.mem_append]

/-- Witness for C8 amended at the fixture state. -/
theorem c8_selection_witness :
    (fxEmptyPS ∈ schedulerSelect fxBizEmptyPS 1001 [] ↔
      fxEmptyPS ∈ fxBizEmptyPS.subs ∧ fxEmptyPS.status = "active" ∧
      dayOf fxEmptyPS.currentPeriodEnd ≤ 1001) ∧
    Act.gwCharge fxEmptyPS.id ∈
      (processOneRecurring 86486400
        (fun _ => some { id := "tx5", status := "APPROVED" })
        false fxBizEmptyPS fxEmptyPS).1.trace :=
  ⟨(c8_selection fxBizEmptyPS 1001 fxEmptyPS).1,
   (c8_selection fxBizEmptyPS 1001 fxEmptyPS).2 86486400
     (fun _ => some { id := "tx5", status := "APPROVED" }) fxPlan
     (by decide) (by decide)⟩

/-! ## Ledger helper lemmas -/

theorem findEvent_none_iff (evs : List EventRow) (eid : String) :
    findEvent evs eid = none ↔ ∀ r ∈ evs, (r.eventId == eid) = false := by
  simp [findEvent, List.find?_eq_none]

theorem updEvent_not_present (evs : List EventRow) (eid : String)
    (f : EventRow → EventRow) (h : findEvent evs eid = none) :
    updEvent evs eid f = evs := by
  rw [findEvent_none_iff] at h
  induction evs with
  | nil => rfl
  | cons r rest ih =>
    have hr := h r (by simp)
    simp only [updEvent, List.map_cons, hr]
    have := ih (fun x hx => h x (by simp [hx]))
    simpa [updEvent] using this

theorem updEvent_append (a b : List EventRow) (eid : String)
    (f : EventRow → EventRow) :
    updEvent (a ++ b) eid f = updEvent a eid f ++ updEvent b eid f := by
  simp [updEvent]

theorem findEvent_append (a b : List EventRow) (eid : String) :
    findEvent (a ++ b) eid = (findEvent a eid).or (findEvent b eid) := by
  simp [findEvent, List.find?_append]

/-- The empty business state. -/
def fxBizEmpty : Biz :=
  { subs := [], invoices := [], users := [], plans := [], trace := [] }

/-- An empty-ledger state at time 7 over the empty business state. -/
def fxStEmpty : St := { biz := fxBizEmpty, events := [], now := 7 }

/-! ## C6: reconciliation miss leaves the ledger row processed -/

/-- A payment webhook payload whose transaction matches nothing: no
stored transaction id, an unparseable reference, no payment source and
no customer email. -/
def fxPayNoMatch : Payload :=
  { id := some "evt6", event := some "transaction.updated",
    txn := { id := some "txZ", status := some "APPROVED",
             reference := some "XYZ", amountInCents := some 100,
             paymentSourceId := none, customerEmail := none } }

/-- C6 counterexample: a signature-valid APPROVED event that no
strategy can match ends with its ledger row in status processed, not
failed, so the event is not flagged for replay. -/
theorem c6_counterexample :
    ((wompiWebhook (fun _ => "h") "sec" true fxStEmpty "rb"
        (some fxPayNoMatch) (some "h")).1.events.map (fun r => r.status)) =
      ["processed"] ∧
    "processed" ≠ "failed" := by
  refine ⟨by decide, by decide⟩

/-- Unfolding the handler on a fresh, signature-valid delivery. -/
theorem wompiWebhook_fresh (hash : String → String) (secret : String)
    (notifyOk : Bool) (st : St) (rawBody sig eid : String) (p : Payload)
    (hsig : hash (rawBody ++ secret) = sig) (hid : p.id = some eid)
    (hne : eid ≠ "") (hfresh : findEvent st.events eid = none) :
    wompiWebhook hash secret notifyOk st rawBody (some p) (some sig) =
      finishProcess (createEvent st eid p sig) eid p notifyOk := by
  unfold wompiWebhook
  simp only [hsig, ne_eq, not_true_eq_false, if_false, hid, hne, hfresh]

/-- A state with no subscriptions and no invoices but otherwise
arbitrary tables, ledger and clock. -/
def fxStNoSubs (us : List UserRow) (pls : List PlanRow) (tr : List Act)
    (evs : List EventRow) (now : Int) : St :=
  { biz := { subs := [], invoices := [], users := us, plans := pls,
             trace := tr },
    events := evs, now := now }

/-- A payment webhook payload carrying only a transaction id that no
subscription stores: no reference, no payment source, no email.
Every matching strategy fails on it. -/
def fxPayBare : Payload :=
  { id := some "evt6", event := some "transaction.updated",
    txn := { id := some "txZ", status := some "APPROVED",
             reference := none, amountInCents := some 100,
             paymentSourceId := none, customerEmail := none } }

/-- C6 amended: when no matching strategy yields a subscription for
the payment-status webhook (here no subscription or invoice exists, so
every strategy fails), the handler still acknowledges with 200, leaves
every business table untouched, and marks the ledger row processed -
not failed - with no subscription or invoice back-reference; only an
exception during processing can produce a failed row. -/
theorem c6_no_match_processed (hash : String → String)
    (secret rawBody sig : String) (notifyOk : Bool)
    (us : List UserRow) (pls : List PlanRow) (tr : List Act)
    (evs : List EventRow) (now : Int)
    (hsig : hash (rawBody ++ secret) = sig)
    (hfresh : findEvent evs "evt6" = none) :
    (wompiWebhook hash secret notifyOk (fxStNoSubs us pls tr evs now) rawBody
        (some fxPayBare) (some sig)).2 = 200 ∧
    (wompiWebhook hash secret notifyOk (fxStNoSubs us pls tr evs now) rawBody
        (some fxPayBare) (some sig)).1.biz =
      (fxStNoSubs us pls tr evs now).biz ∧
    (wompiWebhook hash secret notifyOk (fxStNoSubs us pls tr evs now) rawBody
        (some fxPayBare) (some sig)).1.events =
      evs ++
        [{ eventId := "evt6", eventType := some "transaction.updated",
           transactionId := some "txZ", signature := sig,
           status := "processed", errorMessage := "",
           subscriptionRef := none, invoiceRef := none,
           processedAt := some now }] := by
  rw [wompiWebhook_fresh hash secret notifyOk (fxStNoSubs us pls tr evs now)
    rawBody sig "evt6" fxPayBare hsig rfl (by decide) hfresh]
  refine ⟨rfl, rfl, ?_⟩
  show updEvent (evs ++ _) "evt6" _ = _
  rw [updEvent_append, updEvent_not_present _ _ _ hfresh]
  simp [updEvent, fxPayBare, fxStNoSubs, createEvent, processBusiness,
    processApproved, approvedFallback, computeProcessedSub,
    computeProcessedInv]

/-- Witness for C6 amended at the empty fixture state. -/
theorem c6_no_match_processed_witness :
    (wompiWebhook (fun _ => "h") "sec" true (fxStNoSubs [] [] [] [] 7) "rb"
        (some fxPayBare) (some "h")).2 = 200 ∧
    (wompiWebhook (fun _ => "h") "sec" true (fxStNoSubs [] [] [] [] 7) "rb"
        (some fxPayBare) (some "h")).1.biz =
      (fxStNoSubs [] [] [] [] 7).biz ∧
    (wompiWebhook (fun _ => "h") "sec" true (fxStNoSubs [] [] [] [] 7) "rb"
        (some fxPayBare) (some "h")).1.events =
      [] ++
        [{ eventId := "evt6", eventType := some "transaction.updated",
           transactionId := some "txZ", signature := "h",
           status := "processed", errorMessage := "",
           subscriptionRef := none, invoiceRef := none,
           processedAt := some 7 }] :=
  c6_no_match_processed (fun _ => "h") "sec" "rb" "h" true [] [] [] [] 7
    rfl rfl

/-! ## C7: signature rejection -/

/-- C7 counterexample: a request whose body fails the checksum (the
computed hash of body plus secret differs from the header) but does
not parse as JSON is answered 500 with no ledger write at all: no
invalid_signature row is recorded and the response is not an
unauthorized one, because json.loads runs before signature
verification. -/
theorem c7_counterexample :
    (fun _ => "h" : String → String) ("x" ++ "sec") ≠ "BAD" ∧
    wompiWebhook (fun _ => "h") "sec" true fxStEmpty "x" none (some "BAD") =
      (fxStEmpty, 500) ∧
    ((wompiWebhook (fun _ => "h") "sec" true fxStEmpty "x" none
        (some "BAD")).1.events.filter
          (fun r => r.status == "invalid_signature")) = [] := by
  refine ⟨by decide, rfl, rfl⟩

/-- C7 amended: for a webhook request whose body parses as JSON and
carries an event id not already in the ledger, a checksum mismatch is
rejected with 403, an invalid_signature ledger row is recorded, the
payload is never handed to reconciliation and no subscription or
invoice is created or modified (the business tables are untouched). -/
theorem c7_signature_rejection (hash : String → String)
    (secret rawBody sig eid : String) (notifyOk : Bool) (st : St)
    (p : Payload) (hneq : hash (rawBody ++ secret) ≠ sig)
    (hid : p.id = some eid)
    (hfresh : findEvent st.events eid = none) :
    (wompiWebhook hash secret notifyOk st rawBody (some p) (some sig)).2 =
      403 ∧
    (wompiWebhook hash secret notifyOk st rawBody (some p) (some sig)).1.biz =
      st.biz ∧
    (wompiWebhook hash secret notifyOk st rawBody (some p) (some sig)).1.events =
      st.events ++
        [{ eventId := eid, eventType := some (p.event.getD "unknown"),
           transactionId := some (p.txn.id.getD "unknown"),
           signature := sig, status := "invalid_signature",
           errorMessage := "Firma X-Event-Checksum invalida",
           subscriptionRef := none, invoiceRef := none,
           processedAt := some st.now }] := by
  unfold wompiWebhook
  simp only [ne_eq, hneq, not_false_eq_true, if_true, hid, Option.getD_some,
    hfresh]
  simp [addInvalidSig]

/-- Witness for C7 amended: a concrete altered body. -/
theorem c7_signature_rejection_witness :
    (wompiWebhook (fun _ => "h") "sec" true fxStEmpty "altered"
        (some fxPayBare) (some "BAD")).2 = 403 ∧
    (wompiWebhook (fun _ => "h") "sec" true fxStEmpty "altered"
        (some fxPayBare) (some "BAD")).1.biz = fxStEmpty.biz ∧
    (wompiWebhook (fun _ => "h") "sec" true fxStEmpty "altered"
        (some fxPayBare) (some "BAD")).1.events =
      fxStEmpty.events ++
        [{ eventId := "evt6",
           eventType := some (fxPayBare.event.getD "unknown"),
           transactionId := some (fxPayBare.txn.id.getD "unknown"),
           signature := "BAD", status := "invalid_signature",
           errorMessage := "Firma X-Event-Checksum invalida",
           subscriptionRef := none, invoiceRef := none,
           processedAt := some fxStEmpty.now }] :=
  c7_signature_rejection (fun _ => "h") "sec" "altered" "BAD" "evt6" true
    fxStEmpty fxPayBare (by decide) rfl rfl

/-! ## C5: matching-strategy precedence -/

/-- A pending subscription matched by the payload's customer email,
created 100 seconds before the webhook arrives. -/
def fxSubEmailB : SubRow :=
  { id := 2, companyId := 2, planId := 9, status := "pending",
    billingCycle := "monthly", currentPeriodStart := 0,
    currentPeriodEnd := 500, wompiSubscriptionId := "",
    wompiCustomerEmail := "c@x", paymentSourceId := "",
    createdAt := 86399900 }

/-- A pending subscription of plan 2 under company 5 (the company of
user 7), the one a LYVIO-FIRST-2-7 reference identifies. -/
def fxSubRefA : SubRow :=
  { id := 3, companyId := 5, planId := 2, status := "pending",
    billingCycle := "monthly", currentPeriodStart := 0,
    currentPeriodEnd := 500, wompiSubscriptionId := "",
    wompiCustomerEmail := "other@x", paymentSourceId := "",
    createdAt := 86399000 }

/-- User 7, member of company 5. -/
def fxUser7 : UserRow := { id := 7, companyId := some 5 }

/-- Business state with both subscriptions (newest first) and user 7. -/
def fxBizTwo : Biz :=
  { subs := [fxSubEmailB, fxSubRefA], invoices := [], users := [fxUser7],
    plans := [], trace := [] }

/-- A first-payment webhook payload that matches the reference-parsing
strategy (LYVIO-FIRST-2-7 identifies fxSubRefA through user 7 and plan
2) and at the same time the email-recency strategy (customer email of
fxSubEmailB, created 100 seconds ago). -/
def fxPayFirst : Payload :=
  { id := some "evt5", event := some "transaction.updated",
    txn := { id := some "tx9", status := some "APPROVED",
             reference := some "LYVIO-FIRST-2-7-99",
             amountInCents := some 5000000, paymentSourceId := none,
             customerEmail := some "c@x" } }

/-- C5 counterexample: a payload matching both the structured-reference
strategy (which identifies subscription 3) and the email-recency
fallback (which identifies subscription 2) resolves to the
email-matched subscription 2, not to the one identified by the parsed
reference: the handler runs the email fallback before first-payment
reference parsing. Subscription 3 is untouched and the invoice is
attached to subscription 2, even though the reference strategy would
have found subscription 3. -/
theorem c5_counterexample :
    (wompiWebhook (fun _ => "h") "sec" true
        { biz := fxBizTwo, events := [], now := 86400000 } "rb"
        (some fxPayFirst) (some "h")).1.biz.subs =
      [{ fxSubEmailB with wompiSubscriptionId := "tx9",
                          status := "active" }, fxSubRefA] ∧
    (wompiWebhook (fun _ => "h") "sec" true
        { biz := fxBizTwo, events := [], now := 86400000 } "rb"
        (some fxPayFirst) (some "h")).1.biz.invoices.map
        (fun i => i.subscriptionId) = [2] ∧
    (fxBizTwo.subs.filter (fun s => s.companyId == 5 && s.planId == 2 &&
        decide ((86400000 : Int) - 86400 ≤ s.createdAt))).head? =
      some fxSubRefA ∧
    fxSubRefA.id ≠ fxSubEmailB.id := by
  refine ⟨by decide, by decide, by decide, by decide⟩

/-- C5 amended: the strategies run in the order stored transaction id,
recurring/retry reference parsing, payment-source id, customer-email
recency, first-payment reference parsing. A payload matching the
stored transaction id resolves there regardless of its reference
(first conjunct, the part of the claim that holds). But when the first
three steps fail and an email match exists, the handler resolves by
email recency and never consults first-payment reference parsing
(second conjunct), so a first-payment reference payload that also
matches by email resolves to the email-matched subscription. -/
theorem c5_precedence :
    (∀ (now : Int) (t : Txn) (notifyOk : Bool) (b : Biz) (tid : String)
        (sub : SubRow), t.id = some tid →
        (b.subs.filter (fun s => s.wompiSubscriptionId == tid)).head? =
          some sub →
        processApproved now t notifyOk b = approvedFound now t notifyOk b sub) ∧
    (∀ (now : Int) (t : Txn) (notifyOk : Bool) (b : Biz) (tid refv em : String)
        (subB : SubRow),
        t.id = some tid →
        (b.subs.filter (fun s => s.wompiSubscriptionId == tid)).head? = none →
        t.reference = some refv →
        strContains refv "LYVIO-REC-" = false →
        strContains refv "LYVIO-RETRY-" = false →
        t.paymentSourceId = none →
        t.customerEmail = some em → em ≠ "" →
        (b.subs.filter (fun s => s.wompiCustomerEmail == em &&
          decide (now - 300 ≤ s.createdAt))).head? = some subB →
        processApproved now t notifyOk b = fallbackUpdate now t b subB) := by
  constructor
  · intro now t notifyOk b tid sub hid hdir
    unfold processApproved
    simp only [hid, hdir]
  · intro now t notifyOk b tid refv em subB hid hdir href hrec hretry hps
      hem hene hmail
    unfold processApproved approvedFallback
    simp only [hid, href, hrec, hretry, Bool.or_self, Bool.false_eq_true,
      if_false, hps, hem, hene, hdir, hmail]

/-- Witness for C5 amended: both conjuncts at concrete inputs - the
direct match resolving subscription 2 when its stored transaction id
matches, and the email fallback resolving subscription 2 for the
first-payment payload. -/
theorem c5_precedence_witness :
    processApproved 86400000 fxPayFirst.txn true
        { subs := [{ fxSubEmailB with wompiSubscriptionId := "tx9" }],
          invoices := [], users := [fxUser7], plans := [], trace := [] } =
      approvedFound 86400000 fxPayFirst.txn true
        { subs := [{ fxSubEmailB with wompiSubscriptionId := "tx9" }],
          invoices := [], users := [fxUser7], plans := [], trace := [] }
        { fxSubEmailB with wompiSubscriptionId := "tx9" } ∧
    processApproved 86400000 fxPayFirst.txn true fxBizTwo =
      fallbackUpdate 86400000 fxPayFirst.txn fxBizTwo fxSubEmailB :=
  ⟨c5_precedence.1 86400000 fxPayFirst.txn true
      { subs := [{ fxSubEmailB with wompiSubscriptionId := "tx9" }],
        invoices := [], users := [fxUser7], plans := [], trace := [] }
      "tx9" { fxSubEmailB with wompiSubscriptionId := "tx9" }
      (by decide) (by decide),
   c5_precedence.2 86400000 fxPayFirst.txn true fxBizTwo "tx9"
      "LYVIO-FIRST-2-7-99" "c@x" fxSubEmailB (by decide) (by decide)
      (by decide) (by decide) (by decide) (by decide) (by decide) (by decide)
      (by decide)⟩

/-! ## C3: restore notification ordering -/

/-- A retry-reference webhook payload for transaction tx1 of
subscription 1. -/
def fxPayRetry : Payload :=
  { id := some "evt1", event := some "transaction.updated",
    txn := { id := some "tx1", status := some "APPROVED",
             reference := some "LYVIO-RETRY-1-99",
             amountInCents := some 5000000, paymentSourceId := none,
             customerEmail := none } }

/-- A state holding one subscription, no invoices, and otherwise
arbitrary tables, ledger and clock. -/
def fxStOne (s : SubRow) (us : List UserRow) (pls : List PlanRow)
    (tr : List Act) (evs : List EventRow) (now : Int) : St :=
  { biz := { subs := [s], invoices := [], users := us, plans := pls,
             trace := tr },
    events := evs, now := now }

/-- C3 counterexample: reconciling an approved retry charge for the
suspended subscription with the downstream notification failing
(acknowledgment false) still flips the subscription to active - the
status after reconciliation differs from the status before - and the
side-effect trace shows the activating save happening before the
notification attempt, not after its acknowledgment. -/
theorem c3_counterexample :
    (wompiWebhook (fun _ => "h") "sec" false
        (fxStOne fxSuspended [] [] [] [] 7) "rb" (some fxPayRetry)
        (some "h")).1.biz.trace =
      [Act.savedSub 1 "active", Act.notifiedRestore 1 false,
       Act.savedSub 1 "active"] ∧
    (wompiWebhook (fun _ => "h") "sec" false
        (fxStOne fxSuspended [] [] [] [] 7) "rb" (some fxPayRetry)
        (some "h")).1.biz.subs.map (fun x => x.status) = ["active"] ∧
    fxSuspended.status = "suspended" ∧ "active" ≠ "suspended" := by
  refine ⟨by decide, by decide, by decide, by decide⟩

/-- C3 amended: when reconciliation of an approved retry charge
restores a suspended subscription, the handler first sets the status
to active and saves it, and only then calls the provisioning
collaborator; the notification result is ignored, so when it reports
failure the subscription still ends active (changed), not unchanged. -/
theorem c3_flip_before_notify (hash : String -> String)
    (secret rawBody sig : String) (notifyOk : Bool) (s : SubRow)
    (us : List UserRow) (pls : List PlanRow) (tr : List Act)
    (evs : List EventRow) (now : Int)
    (hsig : hash (rawBody ++ secret) = sig)
    (hfresh : findEvent evs "evt1" = none)
    (hid1 : s.id = 1) (hstat : s.status = "suspended")
    (hwm : (s.wompiSubscriptionId == "tx1") = false) :
    (wompiWebhook hash secret notifyOk (fxStOne s us pls tr evs now) rawBody
        (some fxPayRetry) (some sig)).1.biz.trace =
      tr ++ [Act.savedSub s.id "active",
             Act.notifiedRestore s.companyId notifyOk,
             Act.savedSub s.id "active"] ∧
    (wompiWebhook hash secret notifyOk (fxStOne s us pls tr evs now) rawBody
        (some fxPayRetry) (some sig)).1.biz.subs.map (fun x => x.status) =
      ["active"] := by
  rw [wompiWebhook_fresh hash secret notifyOk (fxStOne s us pls tr evs now)
    rawBody sig "evt1" fxPayRetry hsig rfl (by decide) hfresh]
  have hA : (strContains "LYVIO-RETRY-1-99" "LYVIO-REC-" ||
      strContains "LYVIO-RETRY-1-99" "LYVIO-RETRY-") = true := by decide
  have hB : pySplit "LYVIO-RETRY-1-99" '-' = ["LYVIO", "RETRY", "1", "99"] := by
    decide
  have hC : strContains "LYVIO-RETRY-1-99" "LYVIO-RETRY-" = true := by decide
  constructor <;>
    simp [finishProcess, markProcessed, createEvent, fxStOne, fxPayRetry,
      processBusiness, processApproved, approvedFound, invoiceExists,
      addInvoice, saveSub, notifyRestore, extendPeriod, pyInt, digitsToNat,
      digitVal, hA, hB, hC, hid1, hstat, hwm]

/-- Witness for C3 amended: the suspended fixture with a failed
notification. -/
theorem c3_flip_before_notify_witness :
    (wompiWebhook (fun _ => "h") "sec" false
        (fxStOne fxSuspended [] [] [] [] 7) "rb" (some fxPayRetry)
        (some "h")).1.biz.trace =
      [] ++ [Act.savedSub fxSuspended.id "active",
             Act.notifiedRestore fxSuspended.companyId false,
             Act.savedSub fxSuspended.id "active"] ∧
    (wompiWebhook (fun _ => "h") "sec" false
        (fxStOne fxSuspended [] [] [] [] 7) "rb" (some fxPayRetry)
        (some "h")).1.biz.subs.map (fun x => x.status) = ["active"] :=
  c3_flip_before_notify (fun _ => "h") "sec" "rb" "h" false fxSuspended
    [] [] [] [] 7 rfl rfl (by decide) (by decide) (by decide)

/-! ## C2: webhook plus synchronous retry both extend the period -/

/-- C2 counterexample: the suspended monthly subscription with period
end 86400000 is charged through the manual retry path, which observes
APPROVED and extends the period to 86400000 + 30 days; the webhook for
the same transaction tx1 then arrives and extends it again, ending at
86400000 + 60 days with exactly one invoice. The period is extended
twice in total, not exactly once. -/
theorem c2_counterexample :
    (retryPayment "APPROVED" true
        (fxStOne fxSuspended [] [] [] [] 7).biz 1).subs.map
        (fun x => x.currentPeriodEnd) = [86400000 + 30 * daySecs] ∧
    (wompiWebhook (fun _ => "h") "sec" true
        { biz := retryPayment "APPROVED" true
            (fxStOne fxSuspended [] [] [] [] 7).biz 1,
          events := [], now := 7 } "rb" (some fxPayRetry)
        (some "h")).1.biz.subs.map (fun x => x.currentPeriodEnd) =
      [86400000 + 30 * daySecs + 30 * daySecs] ∧
    (wompiWebhook (fun _ => "h") "sec" true
        { biz := retryPayment "APPROVED" true
            (fxStOne fxSuspended [] [] [] [] 7).biz 1,
          events := [], now := 7 } "rb" (some fxPayRetry)
        (some "h")).1.biz.invoices.length = 1 ∧
    (86400000 + 30 * daySecs + 30 * daySecs : Int) ≠
      86400000 + 30 * daySecs := by
  refine ⟨by decide, by decide, by decide, by decide⟩

/-- C2 amended: when the synchronous retry path observes APPROVED
first and the webhook for the same transaction id is delivered
afterwards, current_period_end is extended twice - once by each
observer. The retry path performs no invoice-based idempotency check
and writes no Invoice, so the webhook path (whose only guard is the
Invoice uniqueness check) creates the invoice and extends again; only
repeated webhook deliveries of the same transaction are suppressed. -/
theorem c2_double_extension (hash : String -> String)
    (secret rawBody sig : String) (notifyOk : Bool) (s : SubRow)
    (us : List UserRow) (pls : List PlanRow) (tr : List Act)
    (evs : List EventRow) (now : Int)
    (hsig : hash (rawBody ++ secret) = sig)
    (hfresh : findEvent evs "evt1" = none)
    (hid1 : s.id = 1) (hstat : s.status = "suspended")
    (hcycle : s.billingCycle = "monthly")
    (hpay : s.paymentSourceId = "ps1")
    (hwm : (s.wompiSubscriptionId == "tx1") = false) :
    (retryPayment "APPROVED" notifyOk (fxStOne s us pls tr evs now).biz
        s.companyId).subs.map (fun x => x.currentPeriodEnd) =
      [s.currentPeriodEnd + 30 * daySecs] ∧
    (wompiWebhook hash secret notifyOk
        { biz := retryPayment "APPROVED" notifyOk
            (fxStOne s us pls tr evs now).biz s.companyId,
          events := evs, now := now } rawBody (some fxPayRetry)
        (some sig)).1.biz.subs.map (fun x => x.currentPeriodEnd) =
      [s.currentPeriodEnd + 30 * daySecs + 30 * daySecs] ∧
    (wompiWebhook hash secret notifyOk
        { biz := retryPayment "APPROVED" notifyOk
            (fxStOne s us pls tr evs now).biz s.companyId,
          events := evs, now := now } rawBody (some fxPayRetry)
        (some sig)).1.biz.invoices.length = 1 := by
  have hA : (strContains "LYVIO-RETRY-1-99" "LYVIO-REC-" ||
      strContains "LYVIO-RETRY-1-99" "LYVIO-RETRY-") = true := by decide
  have hB : pySplit "LYVIO-RETRY-1-99" '-' = ["LYVIO", "RETRY", "1", "99"] := by
    decide
  have hC : strContains "LYVIO-RETRY-1-99" "LYVIO-RETRY-" = true := by decide
  have hret : retryPayment "APPROVED" notifyOk
      (fxStOne s us pls tr evs now).biz s.companyId =
      { subs := [extendPeriod { s with status := "active" }], invoices := [],
        users := us, plans := pls,
        trace := tr ++ [Act.savedSub s.id "active",
                        Act.notifiedRestore s.companyId notifyOk] } := by
    simp [retryPayment, fxStOne, hstat, hpay, saveSub, notifyRestore,
      extendPeriod, hcycle]
  rw [hret]
  have hwh := wompiWebhook_fresh hash secret notifyOk
    { biz := { subs := [extendPeriod { s with status := "active" }],
               invoices := [], users := us, plans := pls,
               trace := tr ++ [Act.savedSub s.id "active",
                               Act.notifiedRestore s.companyId notifyOk] },
      events := evs, now := now } rawBody sig "evt1" fxPayRetry hsig rfl
    (by decide) hfresh
  rw [hwh]
  refine ⟨?_, ?_, ?_⟩ <;>
    simp [finishProcess, markProcessed, createEvent, fxPayRetry,
      processBusiness, processApproved, approvedFound, invoiceExists,
      addInvoice, saveSub, notifyRestore, extendPeriod, pyInt, digitsToNat,
      digitVal, hA, hB, hC, hid1, hstat, hcycle, hwm]

/-- Witness for C2 amended at the suspended fixture. -/
theorem c2_double_extension_witness :
    (retryPayment "APPROVED" true (fxStOne fxSuspended [] [] [] [] 7).biz
        fxSuspended.companyId).subs.map (fun x => x.currentPeriodEnd) =
      [fxSuspended.currentPeriodEnd + 30 * daySecs] ∧
    (wompiWebhook (fun _ => "h") "sec" true
        { biz := retryPayment "APPROVED" true
            (fxStOne fxSuspended [] [] [] [] 7).biz fxSuspended.companyId,
          events := [], now := 7 } "rb" (some fxPayRetry)
        (some "h")).1.biz.subs.map (fun x => x.currentPeriodEnd) =
      [fxSuspended.currentPeriodEnd + 30 * daySecs + 30 * daySecs] ∧
    (wompiWebhook (fun _ => "h") "sec" true
        { biz := retryPayment "APPROVED" true
            (fxStOne fxSuspended [] [] [] [] 7).biz fxSuspended.companyId,
          events := [], now := 7 } "rb" (some fxPayRetry)
        (some "h")).1.biz.invoices.length = 1 :=
  c2_double_extension (fun _ => "h") "sec" "rb" "h" true fxSuspended
    [] [] [] [] 7 rfl rfl (by decide) (by decide) (by decide) (by decide)
    (by decide)

/-! ## C1: event-id idempotency of the webhook ledger -/

theorem findEvent_updEvent (evs : List EventRow) (eid : String)
    (f : EventRow -> EventRow) (hf : forall r, (f r).eventId = r.eventId) :
    findEvent (updEvent evs eid f) eid = (findEvent evs eid).map f := by
  induction evs with
  | nil => rfl
  | cons r rest ih =>
    by_cases h : (r.eventId == eid) = true
    · have hfr : ((f r).eventId == eid) = true := by rw [hf r]; exact h
      show List.find? _ ((if (r.eventId == eid) = true then f r else r) ::
        updEvent rest eid f) = _
      rw [if_pos h]
      rw [@List.find?_cons_of_pos _ (fun x => x.eventId == eid) (f r)
        (updEvent rest eid f) hfr]
      show _ = (List.find? _ (r :: rest)).map f
      rw [@List.find?_cons_of_pos _ (fun x => x.eventId == eid) r rest h]
      rfl
    · show List.find? _ ((if (r.eventId == eid) = true then f r else r) ::
        updEvent rest eid f) = _
      rw [if_neg h]
      rw [@List.find?_cons_of_neg _ (fun x => x.eventId == eid) r
        (updEvent rest eid f) h]
      show _ = (List.find? _ (r :: rest)).map f
      rw [@List.find?_cons_of_neg _ (fun x => x.eventId == eid) r rest h]
      exact ih

/-- Unfolding the handler on a delivery whose event id already has a
processed or duplicate ledger row. -/
theorem wompiWebhook_dup (hash : String -> String)
    (secret rawBody sig eid : String) (notifyOk : Bool) (st : St)
    (p : Payload) (row : EventRow)
    (hsig : hash (rawBody ++ secret) = sig) (hid : p.id = some eid)
    (hne : eid ≠ "") (hrow : findEvent st.events eid = some row)
    (hst : row.status = "processed" ∨ row.status = "duplicate") :
    wompiWebhook hash secret notifyOk st rawBody (some p) (some sig) =
      (markDuplicate st eid, 200) := by
  unfold wompiWebhook
  simp only [hsig, ne_eq, not_true_eq_false, if_false, hid, hne, hrow]
  rw [if_pos hst]

/-- After a fresh valid delivery the ledger row of the event exists
and is processed, whatever the payload did to the business tables. -/
theorem fresh_step_processed (hash : String -> String)
    (secret rawBody sig eid : String) (notifyOk : Bool) (st : St)
    (p : Payload)
    (hsig : hash (rawBody ++ secret) = sig) (hid : p.id = some eid)
    (hne : eid ≠ "") (hfresh : findEvent st.events eid = none) :
    ∃ r, findEvent
        (wompiWebhook hash secret notifyOk st rawBody (some p)
          (some sig)).1.events eid = some r ∧ r.status = "processed" := by
  rw [wompiWebhook_fresh hash secret notifyOk st rawBody sig eid p hsig hid
    hne hfresh]
  simp only [finishProcess, markProcessed, createEvent]
  rw [findEvent_updEvent _ eid _ (by intro r; rfl)]
  rw [findEvent_append, hfresh, Option.none_or]
  simp [findEvent]

/-- The ledger invariant carried across repeated deliveries: the event
has a row and it is processed or duplicate. -/
def DupInv (eid : String) (st : St) : Prop :=
  ∃ r, findEvent st.events eid = some r ∧
    (r.status = "processed" ∨ r.status = "duplicate")

/-- A delivery under the invariant changes no business table, answers
200 and re-establishes the invariant (the row becomes duplicate). -/
theorem dup_step_preserves (hash : String -> String)
    (secret rawBody sig eid : String) (notifyOk : Bool) (st : St)
    (p : Payload)
    (hsig : hash (rawBody ++ secret) = sig) (hid : p.id = some eid)
    (hne : eid ≠ "") (hinv : DupInv eid st) :
    (wompiWebhook hash secret notifyOk st rawBody (some p) (some sig)).1.biz =
      st.biz ∧
    (wompiWebhook hash secret notifyOk st rawBody (some p) (some sig)).2 =
      200 ∧
    DupInv eid
      (wompiWebhook hash secret notifyOk st rawBody (some p) (some sig)).1 := by
  obtain ⟨r, hr, hs⟩ := hinv
  rw [wompiWebhook_dup hash secret rawBody sig eid notifyOk st p r hsig hid
    hne hr hs]
  refine ⟨rfl, rfl,
    ⟨{ r with status := "duplicate", processedAt := some st.now }, ?_,
     Or.inr rfl⟩⟩
  show findEvent (updEvent st.events eid (fun r =>
    { r with status := "duplicate", processedAt := some st.now })) eid = _
  rw [findEvent_updEvent st.events eid (fun r =>
    { r with status := "duplicate", processedAt := some st.now })
    (fun x => rfl), hr]
  rfl

/-- Iterating deliveries under the invariant never changes the
business tables. -/
theorem dup_iter_preserves (hash : String -> String)
    (secret rawBody sig eid : String) (notifyOk : Bool) (p : Payload)
    (hsig : hash (rawBody ++ secret) = sig) (hid : p.id = some eid)
    (hne : eid ≠ "") :
    ∀ (m : Nat) (st : St), DupInv eid st →
      (iterWebhook hash secret notifyOk rawBody (some p) (some sig) m
        st).biz = st.biz ∧
      DupInv eid
        (iterWebhook hash secret notifyOk rawBody (some p) (some sig) m st) := by
  intro m
  induction m with
  | zero => intro st h; exact ⟨rfl, h⟩
  | succ k ih =>
    intro st h
    have hstep := dup_step_preserves hash secret rawBody sig eid notifyOk st
      p hsig hid hne h
    have hrec := ih
      (wompiWebhook hash secret notifyOk st rawBody (some p) (some sig)).1
      hstep.2.2
    exact ⟨hrec.1.trans hstep.1, hrec.2⟩

/-- C1: idempotency per event id. First part: a delivery whose event
id already has a processed or duplicate ledger row is answered 200, the
row is marked duplicate, and nothing else happens - the business state
(subscriptions, invoices, side effects) is exactly unchanged, so no
reconciliation runs, no invoice is created and no subscription
transition is applied. Second part: n sequential deliveries (n at
least 1) of one fresh event leave the business state exactly as after
the first delivery, so the whole sequence performs exactly the one
transition and at most the one invoice write of its first delivery. -/
theorem c1_webhook_idempotent (hash : String -> String)
    (secret rawBody sig eid : String) (notifyOk : Bool) (st : St)
    (p : Payload)
    (hsig : hash (rawBody ++ secret) = sig) (hid : p.id = some eid)
    (hne : eid ≠ "") :
    (∀ row, findEvent st.events eid = some row →
      row.status = "processed" ∨ row.status = "duplicate" →
      wompiWebhook hash secret notifyOk st rawBody (some p) (some sig) =
        (markDuplicate st eid, 200) ∧
      (markDuplicate st eid).biz = st.biz ∧
      findEvent (markDuplicate st eid).events eid =
        some { row with status := "duplicate",
                        processedAt := some st.now }) ∧
    (findEvent st.events eid = none →
      ∀ n, 1 ≤ n →
        (iterWebhook hash secret notifyOk rawBody (some p) (some sig) n
            st).biz =
          (wompiWebhook hash secret notifyOk st rawBody (some p)
            (some sig)).1.biz) := by
  constructor
  · intro row hrow hs
    refine ⟨wompiWebhook_dup hash secret rawBody sig eid notifyOk st p row
      hsig hid hne hrow hs, rfl, ?_⟩
    show findEvent (updEvent st.events eid (fun r =>
      { r with status := "duplicate", processedAt := some st.now })) eid = _
    rw [findEvent_updEvent st.events eid (fun r =>
      { r with status := "duplicate", processedAt := some st.now })
      (fun x => rfl), hrow]
    rfl
  · intro hfresh n hn
    match n, hn with
    | Nat.succ k, _ =>
      show (iterWebhook hash secret notifyOk rawBody (some p) (some sig) k
        (wompiWebhook hash secret notifyOk st rawBody (some p)
          (some sig)).1).biz = _
      obtain ⟨r, hr, hst⟩ := fresh_step_processed hash secret rawBody sig eid
        notifyOk st p hsig hid hne hfresh
      exact (dup_iter_preserves hash secret rawBody sig eid notifyOk p hsig
        hid hne k _ ⟨r, hr, Or.inl hst⟩).1

/-- Witness for C1: the fixture state, a processed row for the first
part and three deliveries of a fresh event for the second part. -/
theorem c1_webhook_idempotent_witness :
    (wompiWebhook (fun _ => "h") "sec" true
        { biz := fxBizSuspended,
          events := [{ eventId := "evt1", eventType := none,
                       transactionId := none, signature := "h",
                       status := "processed", errorMessage := "",
                       subscriptionRef := none, invoiceRef := none,
                       processedAt := some 3 }],
          now := 7 } "rb" (some fxPayRetry) (some "h") =
      (markDuplicate
        { biz := fxBizSuspended,
          events := [{ eventId := "evt1", eventType := none,
                       transactionId := none, signature := "h",
                       status := "processed", errorMessage := "",
                       subscriptionRef := none, invoiceRef := none,
                       processedAt := some 3 }],
          now := 7 } "evt1", 200)) ∧
    (iterWebhook (fun _ => "h") "sec" true "rb" (some fxPayRetry)
        (some "h") 3 (fxStOne fxSuspended [] [] [] [] 7)).biz =
      (wompiWebhook (fun _ => "h") "sec" true
        (fxStOne fxSuspended [] [] [] [] 7) "rb" (some fxPayRetry)
        (some "h")).1.biz := by
  have h := c1_webhook_idempotent (fun _ => "h") "sec" "rb" "h" "evt1" true
    { biz := fxBizSuspended,
      events := [{ eventId := "evt1", eventType := none,
                   transactionId := none, signature := "h",
                   status := "processed", errorMessage := "",
                   subscriptionRef := none, invoiceRef := none,
                   processedAt := some 3 }],
      now := 7 } fxPayRetry rfl rfl (by decide)
  have h2 := c1_webhook_idempotent (fun _ => "h") "sec" "rb" "h" "evt1" true
    (fxStOne fxSuspended [] [] [] [] 7) fxPayRetry rfl rfl (by decide)
  exact ⟨(h.1 _ rfl (Or.inl rfl)).1, h2.2 rfl 3 (by decide)⟩

end Lyvio
